import Mathlib

/-!
Shallow embedding of the canastracounter-go server (src/server/main.go, with the
near-identical legacy copy src/main.go where it differs).

The store is SQLite behind `database/sql`.  The embedding models the database
state as lists of rows and each HTTP handler / SQL statement as a pure function
on that state.  Two SQLite facts matter for faithfulness:

* the composite `PRIMARY KEY (player_id, game_id)` on `game_players` is always
  enforced, so a duplicate insert fails with a constraint error;
* the `FOREIGN KEY` clauses declared in `initDB` are NOT enforced at runtime:
  SQLite only checks foreign keys when `PRAGMA foreign_keys = ON` is issued on
  the connection, and the code opens the database with the plain DSN
  `"./canastra.db"` (no `_foreign_keys` parameter), so inserts with dangling
  `player_id` / `game_id` succeed.

Go `int` values travelling through JSON are modelled as `Int`; AUTOINCREMENT
ids as `Nat` starting at 1.
-/

namespace Canastra

/-- A row of the `game_players` table: `(player_id, game_id, score)`,
mirroring the Go struct `GamePlayer`. -/
structure GamePlayerRow where
  playerId : Int
  gameId : Int
  score : Int
deriving DecidableEq, Repr

/-- The database state: the three tables created by `initDB`, plus the next
AUTOINCREMENT id of `players` and of `games` (SQLite assigns 1, 2, ... ). -/
structure EntityStore where
  players : List (Nat × String)
  games : List (Nat × Int)
  gamePlayers : List GamePlayerRow
  nextPlayerId : Nat
  nextGameId : Nat
deriving DecidableEq, Repr

/-- The freshly initialized database: `initDB` creates the three empty tables;
AUTOINCREMENT starts handing out ids at 1. -/
def emptyStore : EntityStore :=
  { players := [], games := [], gamePlayers := [], nextPlayerId := 1, nextGameId := 1 }

/-- Failure values of the store operations, as surfaced by the Go error values:
`constraintViolation` is the sqlite3 constraint error on a PRIMARY KEY clash,
`noRows` is `sql.ErrNoRows` from `row.Scan`, `blankName` is the handler's own
empty-name validation.  The handlers map every store failure to the generic
`internal_server_error` envelope. -/
inductive OpError where
  | constraintViolation
  | noRows
  | blankName
deriving DecidableEq, Repr

deriving instance DecidableEq for Except

/-- The row predicate of `WHERE game_id = ? AND player_id = ?`. -/
def rowKey (gameId playerId : Int) (r : GamePlayerRow) : Bool :=
  r.gameId == gameId && r.playerId == playerId

/-- Models `SELECT score FROM game_players WHERE game_id = ? AND player_id = ?`:
the score of the first matching row, if any. -/
def getScore (s : EntityStore) (gameId playerId : Int) : Option Int :=
  (s.gamePlayers.find? (rowKey gameId playerId)).map (fun r => r.score)

/-- Models `UPDATE game_players SET score = score + ? WHERE game_id = ? AND player_id = ?`:
adds `delta` to every matching row (at most one, by the primary key), leaving
other rows alone.  Matching zero rows is not an error. -/
def updateScores (s : EntityStore) (gameId playerId delta : Int) : EntityStore :=
  { s with gamePlayers :=
      s.gamePlayers.map (fun r =>
        if rowKey gameId playerId r then { r with score := r.score + delta } else r) }

/-- The `/games/update-score` core (src/server/main.go lines 214-227): run the
UPDATE, then SELECT the score back; `row.Scan` fails with `sql.ErrNoRows` when
no row matches, which the handler reports as an internal error. -/
def applyScoreDelta (s : EntityStore) (gameId playerId delta : Int) :
    EntityStore × Except OpError Int :=
  match getScore (updateScores s gameId playerId delta) gameId playerId with
  | some sc => (updateScores s gameId playerId delta, Except.ok sc)
  | none => (updateScores s gameId playerId delta, Except.error OpError.noRows)

/-- Repeated `/games/update-score` calls for the same `(gameId, playerId)`
pair: the store state after applying the deltas `ds` in order. -/
def applyDeltas (s : EntityStore) (gameId playerId : Int) (ds : List Int) : EntityStore :=
  ds.foldl (fun t d => (applyScoreDelta t gameId playerId d).1) s

/-- The `/games/players/add` core (src/server/main.go line 262):
`INSERT INTO game_players (player_id, game_id) VALUES (?, ?)`.
The composite primary key `(player_id, game_id)` rejects a duplicate pair; the
declared foreign keys are not enforced (the connection never enables
`PRAGMA foreign_keys`), so no existence check on the ids happens.  The new
row gets the schema default `score = 0`; `LastInsertId` returns the rowid. -/
def attachPlayer (s : EntityStore) (playerId gameId : Int) :
    EntityStore × Except OpError Nat :=
  if s.gamePlayers.any (fun r => r.playerId == playerId && r.gameId == gameId) then
    (s, Except.error OpError.constraintViolation)
  else
    ({ s with gamePlayers := s.gamePlayers ++ [⟨playerId, gameId, 0⟩] },
      Except.ok (s.gamePlayers.length + 1))

/-- The `/games` query (src/server/main.go line 160):
`SELECT game_id, player_id, score FROM game_players WHERE game_id = ?`,
returning the matching rows in storage order. -/
def listScores (s : EntityStore) (gameId : Int) : List GamePlayerRow :=
  s.gamePlayers.filter (fun r => r.gameId == gameId)

/-- The `/players/add` core (src/server/main.go lines 306-316): reject exactly
the empty name, otherwise `INSERT INTO players (name) VALUES (?)` and return
the AUTOINCREMENT id. -/
def registerPlayer (s : EntityStore) (name : String) :
    EntityStore × Except OpError Nat :=
  if name = "" then
    (s, Except.error OpError.blankName)
  else
    ({ s with players := s.players ++ [(s.nextPlayerId, name)],
              nextPlayerId := s.nextPlayerId + 1 },
      Except.ok s.nextPlayerId)

/-- The `/games/new` core (src/server/main.go line 125):
`INSERT INTO games (max_points) VALUES (?)` with no validation of the ceiling;
returns the AUTOINCREMENT id. -/
def createGame (s : EntityStore) (ceiling : Int) : EntityStore × Nat :=
  ({ s with games := s.games ++ [(s.nextGameId, ceiling)],
            nextGameId := s.nextGameId + 1 },
    s.nextGameId)

/-- HTTP methods that reach the handlers. -/
inductive Method where
  | GET
  | POST
  | PUT
  | DELETE
  | OPTIONS
deriving DecidableEq, Repr

/-- The uniform response envelope (Go struct `Response`). -/
structure Response where
  message : String
  success : Bool
deriving DecidableEq, Repr

/-- The src/server/main.go `/` handler (lines 100-103): ignores the request
entirely and answers `{message: "all good", success: true}`.  A request body
that failed to parse is modelled as `none`. -/
def serverHealthHandler (_m : Method) (_body : Option String) : Response :=
  { message := "all good", success := true }

/-- The legacy src/main.go `/` handler (lines 77-80): also ignores the request,
but answers `{message: "Player created", success: true}`. -/
def legacyRootHandler (_m : Method) (_body : Option String) : Response :=
  { message := "Player created", success := true }

/-- The `/players/add` handler (src/server/main.go lines 286-330): POST only,
then JSON decode (`none` models a malformed body), then the empty-name check,
then the insert. -/
def playersAddHandler (s : EntityStore) (m : Method) (body : Option String) :
    EntityStore × Response :=
  if m ≠ Method.POST then
    (s, { message := "method_not_allowed", success := false })
  else
    match body with
    | none => (s, { message := "invalid_json", success := false })
    | some name =>
      match registerPlayer s name with
      | (s1, Except.ok _) => (s1, { message := "user_created", success := true })
      | (s1, Except.error _) =>
        (s1, { message := "validation_error: name can\x27t be blank", success := false })

/-- The `/games/new` handler (src/server/main.go lines 105-147): POST only,
then JSON decode, then the unconditional insert. -/
def gamesNewHandler (s : EntityStore) (m : Method) (body : Option Int) :
    EntityStore × Response :=
  if m ≠ Method.POST then
    (s, { message := "method_not_allowed", success := false })
  else
    match body with
    | none => (s, { message := "invalid_json", success := false })
    | some ceiling =>
      let (s1, _id) := createGame s ceiling
      (s1, { message := "game_created", success := true })

/-- The `/games/players/add` handler (src/server/main.go lines 241-284): POST
only, then JSON decode of `(player_id, game_id)`, then the insert; a
constraint failure is reported as `internal_server_error`. -/
def gamePlayersAddHandler (s : EntityStore) (m : Method) (body : Option (Int × Int)) :
    EntityStore × Response :=
  if m ≠ Method.POST then
    (s, { message := "method_not_allowed", success := false })
  else
    match body with
    | none => (s, { message := "invalid_json", success := false })
    | some (playerId, gameId) =>
      match attachPlayer s playerId gameId with
      | (s1, Except.ok _) => (s1, { message := "game_player_created", success := true })
      | (s1, Except.error _) => (s1, { message := "internal_server_error", success := false })

/-- The `/games/update-score` handler (src/server/main.go lines 192-239): PUT
only, then JSON decode of `(game_id, player_id, score)`, then the
UPDATE-and-SELECT; a missing row is reported as `internal_server_error`. -/
def updateScoreHandler (s : EntityStore) (m : Method) (body : Option (Int × Int × Int)) :
    EntityStore × Response :=
  if m ≠ Method.PUT then
    (s, { message := "method_not_allowed", success := false })
  else
    match body with
    | none => (s, { message := "invalid_json", success := false })
    | some (gameId, playerId, delta) =>
      match applyScoreDelta s gameId playerId delta with
      | (s1, Except.ok _) => (s1, { message := "game_updated", success := true })
      | (s1, Except.error _) => (s1, { message := "internal_server_error", success := false })

/-- One store-mutating request, for describing reachable database states. -/
inductive Op where
  | register (name : String)
  | create (ceiling : Int)
  | attach (playerId gameId : Int)
  | update (gameId playerId delta : Int)
deriving DecidableEq, Repr

/-- The state reached after one operation (the post-state both on success and
on failure). -/
def step (s : EntityStore) : Op → EntityStore
  | Op.register name => (registerPlayer s name).1
  | Op.create ceiling => (createGame s ceiling).1
  | Op.attach playerId gameId => (attachPlayer s playerId gameId).1
  | Op.update gameId playerId delta => (applyScoreDelta s gameId playerId delta).1

/-- The store state after a sequence of operations against the fresh database. -/
def runOps (ops : List Op) : EntityStore :=
  ops.foldl step emptyStore

/-- Uniqueness invariant of the composite primary key: no two `game_players`
rows share the `(player_id, game_id)` pair. -/
def atMostOnePerPair (s : EntityStore) : Prop :=
  s.gamePlayers.Pairwise (fun a b => ¬(a.playerId = b.playerId ∧ a.gameId = b.gameId))

/-- AUTOINCREMENT invariant of the `games` table: every stored game id is
below the next id to be assigned. -/
def gameIdsBounded (s : EntityStore) : Prop :=
  ∀ g ∈ s.games, g.1 < s.nextGameId

/-- Spec-side reading of a "blank" name (a name that is empty or all
whitespace), used to compare the spec's validation wording against the code's
`name == ""` check. -/
def blankPerSpec (name : String) : Bool :=
  name.toList.all (fun c => c.isWhitespace)

lemma rowKey_bumpRow (g p d : Int) (r : GamePlayerRow) :
    rowKey g p (if rowKey g p r then { r with score := r.score + d } else r) = rowKey g p r := by
  by_cases h : rowKey g p r
  · rw [if_pos h]
    rfl
  · rw [if_neg h]

lemma bumpRow_playerId (g p d : Int) (r : GamePlayerRow) :
    (if rowKey g p r then { r with score := r.score + d } else r).playerId = r.playerId := by
  split <;> rfl

lemma bumpRow_gameId (g p d : Int) (r : GamePlayerRow) :
    (if rowKey g p r then { r with score := r.score + d } else r).gameId = r.gameId := by
  split <;> rfl

lemma getScore_updateScores (s : EntityStore) (g p d : Int) :
    getScore (updateScores s g p d) g p = (getScore s g p).map (fun sc => sc + d) := by
  unfold getScore updateScores
  rw [List.find?_map]
  rw [show (rowKey g p ∘ fun r => if rowKey g p r then { r with score := r.score + d } else r)
        = rowKey g p from funext (rowKey_bumpRow g p d)]
  cases hf : s.gamePlayers.find? (rowKey g p) with
  | none => simp
  | some r =>
    have hk : rowKey g p r = true := List.find?_some hf
    simp [hk]

lemma applyScoreDelta_fst (s : EntityStore) (g p d : Int) :
    (applyScoreDelta s g p d).1 = updateScores s g p d := by
  unfold applyScoreDelta
  split <;> rfl

lemma applyDeltas_cons (s : EntityStore) (g p d : Int) (ds : List Int) :
    applyDeltas s g p (d :: ds) = applyDeltas ((applyScoreDelta s g p d).1) g p ds := rfl

lemma getScore_applyDeltas (g p : Int) :
    ∀ (ds : List Int) (s : EntityStore),
      getScore (applyDeltas s g p ds) g p = (getScore s g p).map (fun sc => sc + ds.sum)
  | [], s => by
    cases h : getScore s g p <;> simp [applyDeltas, h]
  | d :: ds, s => by
    rw [applyDeltas_cons, getScore_applyDeltas g p ds, applyScoreDelta_fst,
        getScore_updateScores]
    cases h : getScore s g p <;> simp [h, add_assoc]

lemma updateScores_of_none (s : EntityStore) (g p d : Int) (h : getScore s g p = none) :
    updateScores s g p d = s := by
  have h2 : s.gamePlayers.find? (rowKey g p) = none := by
    unfold getScore at h
    exact Option.map_eq_none'.mp h
  have hall : ∀ r ∈ s.gamePlayers, rowKey g p r = false := by
    intro r hr
    simpa using List.find?_eq_none.mp h2 r hr
  have hmap : s.gamePlayers.map
      (fun r => if rowKey g p r then { r with score := r.score + d } else r) =
      s.gamePlayers.map id :=
    List.map_congr_left (fun r hr => by simp [hall r hr, id])
  unfold updateScores
  rw [hmap, List.map_id]

/-- C2.  For every attached pair with score 0, applying the deltas `d1..dn`
through the update-score operation ends with score `sum(d1..dn)`, and any
permutation of the delta sequence ends with the same score. -/
theorem applyDeltas_sum_perm_invariant (s : EntityStore) (g p : Int) (ds ds' : List Int)
    (h0 : getScore s g p = some 0) (hperm : ds.Perm ds') :
    getScore (applyDeltas s g p ds) g p = some ds.sum ∧
    getScore (applyDeltas s g p ds') g p = getScore (applyDeltas s g p ds) g p := by
  have h1 := getScore_applyDeltas g p ds s
  have h2 := getScore_applyDeltas g p ds' s
  rw [h0] at h1 h2
  simp only [Option.map_some'] at h1 h2
  constructor
  · rw [h1, zero_add]
  · rw [h2, h1, zero_add, zero_add, hperm.sum_eq]

/-- Witness for C2: a store with one attached pair at score 0, the deltas
`[120, 30]` and their swap, ending at 150 either way. -/
theorem applyDeltas_sum_perm_invariant_witness :
    getScore { emptyStore with gamePlayers := [⟨1, 1, 0⟩] } 1 1 = some 0 ∧
    getScore (applyDeltas { emptyStore with gamePlayers := [⟨1, 1, 0⟩] } 1 1 [120, 30]) 1 1 =
      some 150 ∧
    getScore (applyDeltas { emptyStore with gamePlayers := [⟨1, 1, 0⟩] } 1 1 [30, 120]) 1 1 =
      getScore (applyDeltas { emptyStore with gamePlayers := [⟨1, 1, 0⟩] } 1 1 [120, 30]) 1 1 := by
  have h := applyDeltas_sum_perm_invariant { emptyStore with gamePlayers := [⟨1, 1, 0⟩] } 1 1
    [120, 30] [30, 120] (by decide) (List.Perm.swap 30 120 [])
  exact ⟨by decide, h.1, h.2⟩

/-- C4.  A score delta for a never-attached pair fails with the no-rows error
and leaves the store exactly as it was. -/
theorem applyScoreDelta_unattached (s : EntityStore) (g p d : Int)
    (h : getScore s g p = none) :
    applyScoreDelta s g p d = (s, Except.error OpError.noRows) := by
  unfold applyScoreDelta
  rw [updateScores_of_none s g p d h, h]

/-- Witness for C4: a delta against the freshly initialized store is dropped. -/
theorem applyScoreDelta_unattached_witness :
    getScore emptyStore 1 2 = none ∧
    applyScoreDelta emptyStore 1 2 5 = (emptyStore, Except.error OpError.noRows) :=
  ⟨rfl, applyScoreDelta_unattached emptyStore 1 2 5 rfl⟩

/-- C5.  A score delta for an attached pair with score `sc` returns the new
score `sc + delta`, and the listing of the game afterwards shows that score
for the player. -/
theorem applyScoreDelta_success_visible (s : EntityStore) (g p delta sc : Int)
    (h : getScore s g p = some sc) :
    (applyScoreDelta s g p delta).2 = Except.ok (sc + delta) ∧
    getScore (applyScoreDelta s g p delta).1 g p = some (sc + delta) ∧
    ∃ r ∈ listScores (applyScoreDelta s g p delta).1 g,
      r.playerId = p ∧ r.score = sc + delta := by
  have h1 : getScore (updateScores s g p delta) g p = some (sc + delta) := by
    rw [getScore_updateScores, h]
    rfl
  have h2 : (applyScoreDelta s g p delta).2 = Except.ok (sc + delta) := by
    unfold applyScoreDelta
    rw [h1]
  refine ⟨h2, ?_, ?_⟩
  · rw [applyScoreDelta_fst]
    exact h1
  · rw [applyScoreDelta_fst]
    have h1' : ((updateScores s g p delta).gamePlayers.find? (rowKey g p)).map
        (fun r => r.score) = some (sc + delta) := h1
    obtain ⟨r, hfind, hscore⟩ := Option.map_eq_some'.mp h1'
    have hkey : rowKey g p r = true := List.find?_some hfind
    have hmem : r ∈ (updateScores s g p delta).gamePlayers :=
      List.mem_of_find?_eq_some hfind
    simp only [rowKey, Bool.and_eq_true, beq_iff_eq] at hkey
    refine ⟨r, ?_, hkey.2, hscore⟩
    unfold listScores
    simp [List.mem_filter, hmem, hkey.1]

/-- Witness for C5: delta 30 on a pair at score 120 yields 150 and a listing
row with score 150. -/
theorem applyScoreDelta_success_visible_witness :
    (applyScoreDelta { emptyStore with gamePlayers := [⟨1, 1, 120⟩] } 1 1 30).2 =
      Except.ok 150 ∧
    getScore (applyScoreDelta { emptyStore with gamePlayers := [⟨1, 1, 120⟩] } 1 1 30).1 1 1 =
      some 150 ∧
    ∃ r ∈ listScores (applyScoreDelta { emptyStore with gamePlayers := [⟨1, 1, 120⟩] } 1 1 30).1 1,
      r.playerId = 1 ∧ r.score = 150 :=
  applyScoreDelta_success_visible { emptyStore with gamePlayers := [⟨1, 1, 120⟩] } 1 1 30 120
    (by decide)

lemma registerPlayer_gamePlayers (s : EntityStore) (n : String) :
    ((registerPlayer s n).1).gamePlayers = s.gamePlayers := by
  unfold registerPlayer
  split <;> rfl

lemma createGame_gamePlayers (s : EntityStore) (c : Int) :
    ((createGame s c).1).gamePlayers = s.gamePlayers := rfl

lemma atMostOnePerPair_attach (s : EntityStore) (p g : Int)
    (h : atMostOnePerPair s) : atMostOnePerPair ((attachPlayer s p g).1) := by
  unfold attachPlayer
  by_cases hc : (s.gamePlayers.any fun r => r.playerId == p && r.gameId == g) = true
  · rw [if_pos hc]
    exact h
  · rw [if_neg hc]
    unfold atMostOnePerPair at h ⊢
    rw [List.pairwise_append]
    refine ⟨h, List.pairwise_singleton _ _, ?_⟩
    intro a ha b hb
    have hb' : b = ⟨p, g, 0⟩ := by simpa using hb
    subst hb'
    have hfa : ∀ r ∈ s.gamePlayers, ¬((r.playerId == p && r.gameId == g) = true) := by
      simpa [List.any_eq_true] using hc
    intro hcon
    exact hfa a ha (by simp [Bool.and_eq_true, beq_iff_eq, hcon.1, hcon.2])

lemma atMostOnePerPair_update (s : EntityStore) (g p d : Int)
    (h : atMostOnePerPair s) : atMostOnePerPair ((applyScoreDelta s g p d).1) := by
  rw [applyScoreDelta_fst]
  unfold atMostOnePerPair at h ⊢
  unfold updateScores
  refine List.pairwise_map.mpr (h.imp ?_)
  intro a b hab
  simp only [bumpRow_playerId, bumpRow_gameId]
  exact hab

lemma atMostOnePerPair_step (s : EntityStore) (op : Op) (h : atMostOnePerPair s) :
    atMostOnePerPair (step s op) := by
  cases op with
  | register n =>
    unfold atMostOnePerPair at h ⊢
    simp only [step, registerPlayer_gamePlayers]
    exact h
  | create c =>
    unfold atMostOnePerPair at h ⊢
    simp only [step, createGame_gamePlayers]
    exact h
  | attach p g => exact atMostOnePerPair_attach s p g h
  | update g p d => exact atMostOnePerPair_update s g p d h

lemma atMostOnePerPair_foldl (ops : List Op) :
    ∀ s : EntityStore, atMostOnePerPair s → atMostOnePerPair (ops.foldl step s) := by
  induction ops with
  | nil => exact fun s hs => hs
  | cons op ops ih => exact fun s hs => ih (step s op) (atMostOnePerPair_step s op hs)

/-- C3.  Every store state reachable from the fresh database has at most one
`game_players` row per `(player_id, game_id)` pair, and attaching an already
attached pair fails with the primary-key constraint error without touching
the store. -/
theorem attachPlayer_unique_per_pair :
    (∀ ops : List Op, atMostOnePerPair (runOps ops)) ∧
    (∀ (s s1 : EntityStore) (p g : Int) (rid : Nat),
      attachPlayer s p g = (s1, Except.ok rid) →
        attachPlayer s1 p g = (s1, Except.error OpError.constraintViolation)) := by
  constructor
  · exact fun ops => atMostOnePerPair_foldl ops emptyStore List.Pairwise.nil
  · intro s s1 p g rid h
    unfold attachPlayer at h
    by_cases hc : (s.gamePlayers.any fun r => r.playerId == p && r.gameId == g) = true
    · rw [if_pos hc] at h
      exact absurd (congrArg Prod.snd h) (by simp)
    · rw [if_neg hc] at h
      have hs1 : { s with gamePlayers := s.gamePlayers ++ [⟨p, g, 0⟩] } = s1 :=
        congrArg Prod.fst h
      subst hs1
      unfold attachPlayer
      rw [if_pos ?_]
      simp [List.any_append]

/-- Witness for C3: attaching pair (1, 1) on a store already holding it is
rejected by the constraint. -/
theorem attachPlayer_unique_per_pair_witness :
    attachPlayer { emptyStore with gamePlayers := [⟨1, 1, 0⟩] } 1 1 =
      ({ emptyStore with gamePlayers := [⟨1, 1, 0⟩] },
        Except.error OpError.constraintViolation) :=
  attachPlayer_unique_per_pair.2 emptyStore
    { emptyStore with gamePlayers := [⟨1, 1, 0⟩] } 1 1 1 (by decide)

lemma registerPlayer_games (s : EntityStore) (n : String) :
    ((registerPlayer s n).1).games = s.games := by
  unfold registerPlayer
  split <;> rfl

lemma registerPlayer_nextGameId (s : EntityStore) (n : String) :
    ((registerPlayer s n).1).nextGameId = s.nextGameId := by
  unfold registerPlayer
  split <;> rfl

lemma attachPlayer_games (s : EntityStore) (p g : Int) :
    ((attachPlayer s p g).1).games = s.games := by
  unfold attachPlayer
  split <;> rfl

lemma attachPlayer_nextGameId (s : EntityStore) (p g : Int) :
    ((attachPlayer s p g).1).nextGameId = s.nextGameId := by
  unfold attachPlayer
  split <;> rfl

lemma applyScoreDelta_games (s : EntityStore) (g p d : Int) :
    ((applyScoreDelta s g p d).1).games = s.games := by
  rw [applyScoreDelta_fst]
  rfl

lemma applyScoreDelta_nextGameId (s : EntityStore) (g p d : Int) :
    ((applyScoreDelta s g p d).1).nextGameId = s.nextGameId := by
  rw [applyScoreDelta_fst]
  rfl

lemma gameIdsBounded_step (s : EntityStore) (op : Op) (h : gameIdsBounded s) :
    gameIdsBounded (step s op) := by
  cases op with
  | register n =>
    unfold gameIdsBounded at h ⊢
    simp only [step, registerPlayer_games, registerPlayer_nextGameId]
    exact h
  | create c =>
    unfold gameIdsBounded at h ⊢
    simp only [step, createGame]
    intro gm hgm
    rcases List.mem_append.mp hgm with hmem | hmem
    · exact Nat.lt_succ_of_lt (h gm hmem)
    · have hgm' : gm = (s.nextGameId, c) := by simpa using hmem
      rw [hgm']
      exact Nat.lt_succ_self _
  | attach p g =>
    unfold gameIdsBounded at h ⊢
    simp only [step, attachPlayer_games, attachPlayer_nextGameId]
    exact h
  | update g p d =>
    unfold gameIdsBounded at h ⊢
    simp only [step, applyScoreDelta_games, applyScoreDelta_nextGameId]
    exact h

lemma gameIdsBounded_foldl (ops : List Op) :
    ∀ s : EntityStore, gameIdsBounded s → gameIdsBounded (ops.foldl step s) := by
  induction ops with
  | nil => exact fun s hs => hs
  | cons op ops ih => exact fun s hs => ih (step s op) (gameIdsBounded_step s op hs)

/-- C8.  Creating a game never validates the ceiling: for every integer
ceiling (zero and negatives included) the insert succeeds, stores exactly the
given ceiling, and hands back the next AUTOINCREMENT id, which is fresh in
every reachable state. -/
theorem createGame_any_ceiling_fresh :
    (∀ ops : List Op, gameIdsBounded (runOps ops)) ∧
    (∀ (s : EntityStore) (c : Int),
      (createGame s c).2 = s.nextGameId ∧
      ((createGame s c).1).games = s.games ++ [(s.nextGameId, c)] ∧
      (gameIdsBounded s →
        s.nextGameId ∉ s.games.map Prod.fst ∧
        ((createGame s c).1).games.find? (fun gm => gm.1 == s.nextGameId) =
          some (s.nextGameId, c))) := by
  constructor
  · exact fun ops =>
      gameIdsBounded_foldl ops emptyStore (fun gm hgm => absurd hgm (List.not_mem_nil gm))
  · intro s c
    refine ⟨rfl, rfl, fun hb => ⟨?_, ?_⟩⟩
    · intro hmem
      obtain ⟨gm, hgm, heq⟩ := List.mem_map.mp hmem
      have hlt := hb gm hgm
      rw [heq] at hlt
      exact Nat.lt_irrefl _ hlt
    · have h1 : s.games.find? (fun gm => gm.1 == s.nextGameId) = none :=
        List.find?_eq_none.mpr (fun gm hgm => by
          have hlt := hb gm hgm
          simp [beq_iff_eq]
          omega)
      have h2 : ((createGame s c).1).games = s.games ++ [(s.nextGameId, c)] := rfl
      rw [h2, List.find?_append, h1]
      simp

/-- Witness for C8: creating a game with negative ceiling -5 on the fresh
store succeeds, stores -5 and returns the fresh id 1. -/
theorem createGame_any_ceiling_fresh_witness :
    (createGame emptyStore (-5)).2 = 1 ∧
    ((createGame emptyStore (-5)).1).games = [(1, -5)] ∧
    (1 : Nat) ∉ emptyStore.games.map Prod.fst ∧
    ((createGame emptyStore (-5)).1).games.find? (fun gm => gm.1 == 1) = some (1, -5) := by
  have h := createGame_any_ceiling_fresh.2 emptyStore (-5)
  have h3 := h.2.2 (fun gm hgm => absurd hgm (List.not_mem_nil gm))
  exact ⟨h.1, h.2.1, h3.1, h3.2⟩

/-- C6.  Listing a game returns exactly the `game_players` rows whose
`game_id` matches, and in particular the empty list (not an error) when no
row matches, whether or not the game exists. -/
theorem listScores_exactly_matching :
    (∀ (s : EntityStore) (g : Int) (r : GamePlayerRow),
      r ∈ listScores s g ↔ (r ∈ s.gamePlayers ∧ r.gameId = g)) ∧
    (∀ (s : EntityStore) (g : Int),
      (∀ r ∈ s.gamePlayers, r.gameId ≠ g) → listScores s g = []) := by
  constructor
  · intro s g r
    unfold listScores
    rw [List.mem_filter]
    simp [beq_iff_eq]
  · intro s g h
    unfold listScores
    rw [List.filter_eq_nil_iff]
    intro r hr
    simp only [beq_iff_eq]
    exact h r hr

/-- Witness for C6: listing game 7 on the fresh store (game 7 does not exist)
yields the empty list. -/
theorem listScores_exactly_matching_witness :
    listScores emptyStore 7 = [] :=
  listScores_exactly_matching.2 emptyStore 7 (fun r hr => absurd hr (List.not_mem_nil r))

/-- Counterexample to C7 as stated: the whitespace-only name " " is blank in
the spec's sense, yet registration succeeds and inserts a player row, because
the code only compares the name against the empty string. -/
theorem registerPlayer_accepts_whitespace_name :
    blankPerSpec " " = true ∧
    (registerPlayer emptyStore " ").2 = Except.ok 1 ∧
    ((registerPlayer emptyStore " ").1).players = [(1, " ")] := by
  refine ⟨?_, by decide, by decide⟩
  decide

/-- C7 (amended).  Registration fails with the validation error, inserting
nothing, exactly when the name is the empty string; every other name
(whitespace-only ones included) is inserted and gets the next id. -/
theorem registerPlayer_empty_name_only (s : EntityStore) (name : String) :
    (name = "" → registerPlayer s name = (s, Except.error OpError.blankName)) ∧
    (name ≠ "" →
      registerPlayer s name =
        ({ s with players := s.players ++ [(s.nextPlayerId, name)],
                  nextPlayerId := s.nextPlayerId + 1 },
          Except.ok s.nextPlayerId)) := by
  constructor
  · intro h
    unfold registerPlayer
    rw [if_pos h]
  · intro h
    unfold registerPlayer
    rw [if_neg h]

/-- Witness for C7: the empty name is rejected with the store untouched, and
the whitespace name " " is inserted with id 1. -/
theorem registerPlayer_empty_name_only_witness :
    registerPlayer emptyStore "" = (emptyStore, Except.error OpError.blankName) ∧
    registerPlayer emptyStore " " =
      ({ emptyStore with players := [(1, " ")], nextPlayerId := 2 }, Except.ok 1) :=
  ⟨(registerPlayer_empty_name_only emptyStore "").1 rfl,
    (registerPlayer_empty_name_only emptyStore " ").2 (by decide)⟩

/-- Counterexample to C9 as stated: the legacy root handler of src/main.go
(cited by the claim) answers with message "Player created", not "all good". -/
theorem legacyRoot_health_mismatch :
    legacyRootHandler Method.GET none ≠ { message := "all good", success := true } := by
  decide

/-- C9 (amended).  The src/server health handler answers
`{message: "all good", success: true}` for every method and body; the
duplicate root handler of src/main.go instead answers
`{message: "Player created", success: true}`, also unconditionally. -/
theorem health_endpoints_fixed_response :
    (∀ (m : Method) (b : Option String),
      serverHealthHandler m b = { message := "all good", success := true }) ∧
    (∀ (m : Method) (b : Option String),
      legacyRootHandler m b = { message := "Player created", success := true }) :=
  ⟨fun _ _ => rfl, fun _ _ => rfl⟩

/-- C1 evaluated at the failing input: on the fresh database, which contains
no game and no player, attaching pair (1, 1) succeeds and inserts a dangling
`game_players` row, because the connection never enables SQLite foreign-key
enforcement. -/
theorem attachPlayer_no_referential_check :
    emptyStore.games = [] ∧ emptyStore.players = [] ∧
    attachPlayer emptyStore 1 1 =
      ({ emptyStore with gamePlayers := [⟨1, 1, 0⟩] }, Except.ok 1) := by
  decide

/-- C10.  Requests rejected before the store is touched (wrong HTTP method,
malformed JSON body, blank player name) return the failure envelope and leave
the store exactly as it was. -/
theorem transport_rejections_leave_store (s : EntityStore) :
    (∀ (m : Method) (b : Option String), m ≠ Method.POST →
      playersAddHandler s m b = (s, { message := "method_not_allowed", success := false })) ∧
    (playersAddHandler s Method.POST none =
      (s, { message := "invalid_json", success := false })) ∧
    (playersAddHandler s Method.POST (some "") =
      (s, { message := "validation_error: name can\x27t be blank", success := false })) ∧
    (∀ (m : Method) (b : Option Int), m ≠ Method.POST →
      gamesNewHandler s m b = (s, { message := "method_not_allowed", success := false })) ∧
    (gamesNewHandler s Method.POST none =
      (s, { message := "invalid_json", success := false })) ∧
    (∀ (m : Method) (b : Option (Int × Int)), m ≠ Method.POST →
      gamePlayersAddHandler s m b =
        (s, { message := "method_not_allowed", success := false })) ∧
    (gamePlayersAddHandler s Method.POST none =
      (s, { message := "invalid_json", success := false })) ∧
    (∀ (m : Method) (b : Option (Int × Int × Int)), m ≠ Method.PUT →
      updateScoreHandler s m b = (s, { message := "method_not_allowed", success := false })) ∧
    (updateScoreHandler s Method.PUT none =
      (s, { message := "invalid_json", success := false })) := by
  refine ⟨?_, rfl, rfl, ?_, rfl, ?_, rfl, ?_, rfl⟩
  · intro m b h
    unfold playersAddHandler
    rw [if_pos h]
  · intro m b h
    unfold gamesNewHandler
    rw [if_pos h]
  · intro m b h
    unfold gamePlayersAddHandler
    rw [if_pos h]
  · intro m b h
    unfold updateScoreHandler
    rw [if_pos h]

/-- Witness for C10: a GET against each mutating route and an empty player
name each bounce with the fresh store unchanged. -/
theorem transport_rejections_leave_store_witness :
    playersAddHandler emptyStore Method.GET none =
      (emptyStore, { message := "method_not_allowed", success := false }) ∧
    gamesNewHandler emptyStore Method.GET none =
      (emptyStore, { message := "method_not_allowed", success := false }) ∧
    gamePlayersAddHandler emptyStore Method.GET none =
      (emptyStore, { message := "method_not_allowed", success := false }) ∧
    updateScoreHandler emptyStore Method.GET none =
      (emptyStore, { message := "method_not_allowed", success := false }) ∧
    playersAddHandler emptyStore Method.POST (some "") =
      (emptyStore, { message := "validation_error: name can\x27t be blank", success := false }) :=
  ⟨(transport_rejections_leave_store emptyStore).1 Method.GET none (by decide),
    (transport_rejections_leave_store emptyStore).2.2.2.1 Method.GET none (by decide),
    (transport_rejections_leave_store emptyStore).2.2.2.2.2.1 Method.GET none (by decide),
    (transport_rejections_leave_store emptyStore).2.2.2.2.2.2.2.1 Method.GET none (by decide),
    (transport_rejections_leave_store emptyStore).2.2.1⟩

end Canastra
